/-
Verification of the session lifecycle and signing subsystem of the
sonemas/service-rs repository.

The Rust sources are shallowly embedded as executable Lean definitions:
  - timestamps (chrono DateTime<Utc>) are modelled as Int (epoch seconds),
    durations as Int (seconds);
  - the chrono timestamp rendering used by the Display impl and the
    sha256 digest are external library functions, so they are passed as
    explicit function parameters (fmtTime, sha) wherever used;
  - Vec<u8> byte strings are List Nat;
  - ring's Ed25519 pkcs8 parsing / signing / verification are external,
    so Key operations take them as explicit function parameters;
  - fallible operations return Except, the builder's assert! is modelled
    by an Option result (none = panic);
  - the manager's Mutex<HashMap<..>> ledger is modelled single-threadedly
    as an association list with HashMap-insert (replace) semantics; lock
    acquisition is modelled as always succeeding.
-/
import Mathlib

namespace Svc

/-! ## foundation/key.rs -/

/-- Embeds `enum KeyError` from src/libsvc/src/foundation/key.rs.
The payloads of the external ring / io error types are irrelevant to the
claims and are dropped. -/
inductive KeyError where
  | RingUnspecifiedError : KeyError
  | RingKeyRejected : KeyError
  | IoError : KeyError
  | InvalidDerFile : KeyError
deriving DecidableEq, Repr

/-- Embeds the `SigningKey` trait: the manager only ever signs the string
payload `format!("{}:{}", session, nonce)`, so messages are Strings here. -/
structure SigningKey where
  sign : String → Except KeyError (List Nat)
  has_signed : String → List Nat → Bool

/-- Embeds `struct Key { der_bytes: Vec<u8> }`. -/
structure Key where
  der_bytes : List Nat
deriving DecidableEq, Repr

/-- Embeds `Key::open`: `fs::read(filename)?` then `Ok(der_bytes.into())`.
The file-system read is external; its outcome is the argument
(`Except.error` = io failure, `Except.ok bs` = the file's bytes). Note the
source performs no decoding of the bytes. (`open` is a Lean keyword, hence
the `_file` suffix.) -/
def Key.open_file (readResult : Except Unit (List Nat)) : Except KeyError Key :=
  match readResult with
  | Except.error _ => Except.error KeyError.IoError
  | Except.ok bs => Except.ok ⟨bs⟩

/-- Embeds `<Key as SigningKey>::sign`: `Ed25519KeyPair::from_pkcs8` (whose
success, `parseOk`, and output signature, `edSign`, are external) followed by
signing; a pkcs8 rejection becomes `KeyError::RingKeyRejected` via `From`. -/
def Key.sign (parseOk : List Nat → Bool) (edSign : List Nat → List Nat → List Nat)
    (k : Key) (message : List Nat) : Except KeyError (List Nat) :=
  if parseOk k.der_bytes then Except.ok (edSign k.der_bytes message)
  else Except.error KeyError.RingKeyRejected

/-- Embeds `<Key as SigningKey>::has_signed`: a pkcs8 rejection returns
`false`; otherwise the external Ed25519 verification (`edVerify`, a function
of the key bytes, message and signature) decides. -/
def Key.has_signed (parseOk : List Nat → Bool)
    (edVerify : List Nat → List Nat → List Nat → Bool)
    (k : Key) (message : List Nat) (signature : List Nat) : Bool :=
  if parseOk k.der_bytes then edVerify k.der_bytes message signature else false

/-! ## domain/user/session/mod.rs : the Session typestate -/

/-- Embeds the `Unsigned` state type. -/
structure Unsigned where
deriving DecidableEq, Repr

/-- Embeds the `Signed` state type, carrying the signature bytes. -/
structure Signed where
  signature : List Nat
deriving DecidableEq, Repr

/-- Embeds `struct Session<SignState>`; `Id` is string-backed. -/
structure Session (SignState : Type) where
  id : String
  user_id : String
  issuer : String
  issued_at : Int
  expires_at : Int
  sign_state : SignState
deriving DecidableEq, Repr

/-- Embeds `Session::is_expired`: `Utc::now() > self.expires_at`, with the
current time passed explicitly. -/
def Session.is_expired (s : Session σ) (now : Int) : Bool :=
  decide (now > s.expires_at)

/-- Embeds the `Display` impl for `Session<SignState>`: the canonical string
`id:user_id:issuer:issued_at:expires_at`, with the chrono rendering of the
two timestamps supplied as `fmtTime`. -/
def Session.canonical (fmtTime : Int → String) (s : Session σ) : String :=
  s.id ++ ":" ++ s.user_id ++ ":" ++ s.issuer ++ ":" ++ fmtTime s.issued_at
    ++ ":" ++ fmtTime s.expires_at

/-- Embeds `Session::hash`: `sha256::digest(format!("{}:{}", self, nonce))`,
with the sha256 digest supplied as `sha`. -/
def Session.hash (sha : String → String) (fmtTime : Int → String)
    (s : Session σ) (nonce : String) : String :=
  sha (s.canonical fmtTime ++ ":" ++ nonce)

/-- Embeds `Session<Unsigned>::is_valid`, which returns `false`
unconditionally. -/
def Session.is_valid_unsigned (_s : Session Unsigned) : Bool :=
  false

/-- Embeds `Session<Unsigned>::add_signature`. -/
def Session.add_signature (s : Session Unsigned) (signature : List Nat) :
    Session Signed :=
  { id := s.id, user_id := s.user_id, issuer := s.issuer,
    issued_at := s.issued_at, expires_at := s.expires_at,
    sign_state := ⟨signature⟩ }

/-- Embeds `Session<Unsigned>::restore`. -/
def Session.restore (id : String) (user_id : String) (issuer : String)
    (issued_at : Int) (expires_at : Int) (signature : List Nat) :
    Session Signed :=
  { id := id, user_id := user_id, issuer := issuer,
    issued_at := issued_at, expires_at := expires_at,
    sign_state := ⟨signature⟩ }

/-- Embeds `Session<Signed>::signature`. -/
def Session.signature (s : Session Signed) : List Nat :=
  s.sign_state.signature

/-- Embeds `Session<Signed>::is_valid`:
`!is_expired && !user_id.is_empty() && !issuer.is_empty() && now >= issued_at`. -/
def Session.is_valid (s : Session Signed) (now : Int) : Bool :=
  !(s.is_expired now) && !(s.user_id.isEmpty) && !(s.issuer.isEmpty)
    && decide (now ≥ s.issued_at)

/-! ## domain/user/session/mod.rs : the SessionBuilder -/

/-- Embeds `struct SessionBuilder`. -/
structure SessionBuilder where
  id : String
  user_id : String
  issuer : String
  issued_at : Int
  duration : Int
deriving DecidableEq, Repr

/-- Embeds `SessionBuilder::default()`: random uuid (`newId`), empty
user_id, issuer "auth service", issued_at = now, duration one hour. -/
def SessionBuilder.default_builder (newId : String) (now : Int) : SessionBuilder :=
  { id := newId, user_id := "", issuer := "auth service",
    issued_at := now, duration := 3600 }

/-- Embeds `SessionBuilder::with_id`. -/
def SessionBuilder.with_id (b : SessionBuilder) (id : String) : SessionBuilder :=
  { b with id := id }

/-- Embeds `SessionBuilder::with_issuer`. -/
def SessionBuilder.with_issuer (b : SessionBuilder) (issuer : String) : SessionBuilder :=
  { b with issuer := issuer }

/-- Embeds `SessionBuilder::issued_at` (named apart from the field accessor). -/
def SessionBuilder.set_issued_at (b : SessionBuilder) (issued_at : Int) : SessionBuilder :=
  { b with issued_at := issued_at }

/-- Embeds `SessionBuilder::with_duration`. -/
def SessionBuilder.with_duration (b : SessionBuilder) (duration : Int) : SessionBuilder :=
  { b with duration := duration }

/-- Embeds `SessionBuilder::build` (also called `finish` in the manager):
`assert!(!self.user_id.is_empty())` — the panic is modelled as `none` —
then `expires_at = issued_at + duration`. -/
def SessionBuilder.build (b : SessionBuilder) : Option (Session Unsigned) :=
  if b.user_id.isEmpty then none
  else some { id := b.id, user_id := b.user_id, issuer := b.issuer,
              issued_at := b.issued_at,
              expires_at := b.issued_at + b.duration,
              sign_state := ⟨⟩ }

/-- Embeds `Session::new(user_id)` (also called `Session::build` in the
manager): the default builder with the supplied user id. -/
def Session.new_session_builder (user_id : String) (newId : String) (now : Int) :
    SessionBuilder :=
  { SessionBuilder.default_builder newId now with user_id := user_id }

/-! ## domain/user/session/manager.rs : the SessionManager -/

/-- Embeds `struct SessionData { expires_at }`. -/
structure SessionData where
  expires_at : Int
deriving DecidableEq, Repr

/-- Embeds the manager's `enum SessionError` (the payloads of the
`KeyError`/`PoisonError` wrappers are kept / simplified to a String). -/
inductive SessionError where
  | KeyErr : KeyError → SessionError
  | PoisonError : String → SessionError
  | InvalidSession : SessionError
  | UnknownSession : SessionError
  | InvalidSignature : SessionError
deriving DecidableEq, Repr

/-- The issuance ledger: `HashMap<String, SessionData>` modelled as an
association list. Membership test of `HashMap::contains_key`. -/
def ledger_contains (ledger : List (String × SessionData)) (k : String) : Bool :=
  ledger.any (fun p => p.1 == k)

/-- `HashMap::insert` semantics: the new binding replaces any old one. -/
def ledger_insert (ledger : List (String × SessionData)) (k : String)
    (v : SessionData) : List (String × SessionData) :=
  (k, v) :: ledger.filter (fun p => !(p.1 == k))

/-- Embeds `struct SessionManager`. The signing key is held by the manager
(as in the `auth` variant; the `libsvc` variant's `get_signing_key` helper
is commented out in the source). The `Mutex` is modelled away: lock
acquisition always succeeds in this single-threaded embedding. -/
structure SessionManager where
  key : SigningKey
  nonce : String
  issuer : String
  session_duration : Int
  issued_sessions : List (String × SessionData)

/-- Embeds `SessionManager::_new_session`. The random uuid for the session
id (`newId`) and the clock reading taken by the builder default (`now`) are
explicit. `none` models the builder's panic on an empty user id; the
returned pair carries the new signed session and the manager with the
updated issuance ledger. -/
def SessionManager.new_session_steps (sha : String → String)
    (fmtTime : Int → String) (m : SessionManager) (user_id : String)
    (issued_at : Option Int) (now : Int) (newId : String) :
    Option (Except SessionError (Session Signed × SessionManager)) :=
  let builder0 :=
    ((Session.new_session_builder user_id newId now).with_issuer
        m.issuer).with_duration m.session_duration
  let builder := match issued_at with
    | some t => builder0.set_issued_at t
    | none => builder0
  match builder.build with
  | none => none
  | some session =>
    let payload := session.canonical fmtTime ++ ":" ++ m.nonce
    match m.key.sign payload with
    | Except.error e => some (Except.error (SessionError.KeyErr e))
    | Except.ok signature =>
      let ledger := ledger_insert m.issued_sessions
        (session.hash sha fmtTime m.nonce) ⟨session.expires_at⟩
      some (Except.ok
        (session.add_signature signature,
         { m with issued_sessions := ledger }))

/-- Embeds `SessionManager::new_session`: `_new_session(user_id, None)`. -/
def SessionManager.new_session (sha : String → String)
    (fmtTime : Int → String) (m : SessionManager) (user_id : String)
    (now : Int) (newId : String) :
    Option (Except SessionError (Session Signed × SessionManager)) :=
  m.new_session_steps sha fmtTime user_id none now newId

/-- Embeds `SessionManager::verify_session`: validity, then ledger
membership, then signature verification, short-circuiting. -/
def SessionManager.verify_session (sha : String → String)
    (fmtTime : Int → String) (m : SessionManager) (s : Session Signed)
    (now : Int) : Except SessionError Unit :=
  if !(s.is_valid now) then Except.error SessionError.InvalidSession
  else if !(ledger_contains m.issued_sessions (s.hash sha fmtTime m.nonce)) then
    Except.error SessionError.UnknownSession
  else if !(m.key.has_signed (s.canonical fmtTime ++ ":" ++ m.nonce)
      s.signature) then
    Except.error SessionError.InvalidSignature
  else Except.ok ()

/-! ## Concrete fixtures used by counterexamples and witnesses -/

/-- A stand-in for the external sha256 digest in concrete evaluations
(the claims' theorems quantify over the digest function). -/
def shaId : String → String := fun s => s

/-- A stand-in for the external chrono timestamp rendering in concrete
evaluations. -/
def fmtFix : Int → String := fun t => toString t

/-- A concrete `SigningKey` instance (the trait is implementable by any
type) whose verification accepts everything. -/
def kTriv : SigningKey := ⟨fun _ => Except.ok [7], fun _ _ => true⟩

/-- A freshly built unsigned session: `Session::new("1234")` with id
"sid" at time 0, default issuer and duration. -/
def sessU : Session Unsigned :=
  ⟨"sid", "1234", "auth service", 0, 3600, ⟨⟩⟩

/-- The signed counterpart of `sessU` (signature as produced by `kTriv`). -/
def sessB : Session Signed := sessU.add_signature [7]

/-- A freshly built session manager with the default issuer and duration,
nonce "n" and the trivial key. -/
def mgrB : SessionManager := ⟨kTriv, "n", "auth service", 3600, []⟩

/-- `mgrB` after issuing `sessU`: its ledger holds the session's hash. -/
def mgrBLedger : SessionManager :=
  { mgrB with issued_sessions := [(sessU.hash shaId fmtFix ("n"), ⟨3600⟩)] }

/-- A session manager whose issuer was overridden to the empty string
(`with_issuer("")`). -/
def mgrNoIssuer : SessionManager := ⟨kTriv, "n", "", 3600, []⟩

/-- The unsigned session `mgrNoIssuer` builds for subject "1234" at time 0. -/
def sessUNoIssuer : Session Unsigned := ⟨"sid", "1234", "", 0, 3600, ⟨⟩⟩

/-- The signed session `mgrNoIssuer.new_session` returns. -/
def sessNoIssuer : Session Signed := sessUNoIssuer.add_signature [7]

/-- `mgrNoIssuer` after issuing `sessNoIssuer`. -/
def mgrNoIssuer2 : SessionManager :=
  { mgrNoIssuer with issued_sessions := [(sessUNoIssuer.hash shaId fmtFix ("n"), ⟨3600⟩)] }

/-- First session of the canonical-representation collision pair. -/
def sessColA : Session Unsigned := ⟨"a:b", "c", "auth service", 0, 3600, ⟨⟩⟩

/-- Second session of the canonical-representation collision pair: the ":"
boundary between id and subject is shifted, all other attributes agree. -/
def sessColB : Session Unsigned := ⟨"a", "b:c", "auth service", 0, 3600, ⟨⟩⟩

/-! ## Claim theorems -/

/-- Helper: a String's `isEmpty` is `false` iff the string is non-empty. -/
theorem string_isEmpty_false (t : String) : (t.isEmpty = false) ↔ t ≠ "" := by
  constructor
  · intro h he
    rw [he] at h
    exact absurd h (by decide)
  · intro h
    cases hb : t.isEmpty with
    | false => rfl
    | true => exact absurd ((String.isEmpty_iff t).mp hb) h

/-- C3: every session in the `Unsigned` state has `is_valid() = false`,
regardless of its id, subject, issuer, issued-at and expires-at values. -/
theorem unsigned_sessions_never_valid :
    ∀ (id user_id issuer : String) (issued_at expires_at : Int),
      Session.is_valid_unsigned ⟨id, user_id, issuer, issued_at, expires_at, ⟨⟩⟩ = false := by
  intro _ _ _ _ _
  rfl

/-- C4: a `Signed` session's `is_valid()` is true iff it is not expired,
its subject and issuer are non-empty, and its issued-at is not in the
future; and the remaining attributes (id, signature) do not affect the
result. -/
theorem signed_is_valid_characterization (s : Session Signed) (now : Int) :
    (s.is_valid now = true ↔
      (s.is_expired now = false ∧ s.user_id ≠ "" ∧ s.issuer ≠ "" ∧
        s.issued_at ≤ now)) ∧
    (∀ (i : String) (sig : List Nat),
      Session.is_valid ⟨i, s.user_id, s.issuer, s.issued_at, s.expires_at, ⟨sig⟩⟩ now
        = s.is_valid now) := by
  constructor
  · simp [Session.is_valid, string_isEmpty_false, ge_iff_le,
      Bool.not_eq_true', and_assoc]
  · intro i sig
    simp [Session.is_valid, Session.is_expired]

/-- C5: for every session (either sign state), `is_expired()` is true iff
the current time is strictly greater than `expires_at`; at the boundary
`now = expires_at` the session is not expired. -/
theorem is_expired_strict_boundary {σ : Type} (s : Session σ) (now : Int) :
    (s.is_expired now = true ↔ now > s.expires_at) ∧
    (now = s.expires_at → s.is_expired now = false) := by
  constructor
  · simp [Session.is_expired]
  · intro h
    simp [Session.is_expired, h]

/-- Witness for C5 at a concrete boundary input: `now = expires_at = 3600`. -/
theorem is_expired_strict_boundary_witness :
    sessU.is_expired 3600 = false :=
  (is_expired_strict_boundary sessU 3600).2 rfl

/-- C6: a built session's `expires_at` equals `issued_at + duration`, and
`add_signature` preserves all five attributes, only attaching the given
signature. -/
theorem build_expiry_and_add_signature_frame
    (b : SessionBuilder) (s : Session Unsigned) (sig : List Nat)
    (h : b.build = some s) :
    s.expires_at = b.issued_at + b.duration ∧
    (s.add_signature sig).id = s.id ∧
    (s.add_signature sig).user_id = s.user_id ∧
    (s.add_signature sig).issuer = s.issuer ∧
    (s.add_signature sig).issued_at = s.issued_at ∧
    (s.add_signature sig).expires_at = s.expires_at ∧
    (s.add_signature sig).signature = sig := by
  refine ⟨?_, rfl, rfl, rfl, rfl, rfl, rfl⟩
  unfold SessionBuilder.build at h
  by_cases hu : b.user_id.isEmpty
  · simp [hu] at h
  · simp [hu] at h
    subst h
    rfl

/-- Witness for C6 at a concrete builder: `Session::new("1234")` with id
"sid" built at time 0. -/
theorem build_expiry_and_add_signature_frame_witness :
    sessU.expires_at = 0 + 3600 ∧
    (sessU.add_signature [7]).id = sessU.id ∧
    (sessU.add_signature [7]).user_id = sessU.user_id ∧
    (sessU.add_signature [7]).issuer = sessU.issuer ∧
    (sessU.add_signature [7]).issued_at = sessU.issued_at ∧
    (sessU.add_signature [7]).expires_at = sessU.expires_at ∧
    (sessU.add_signature [7]).signature = [7] :=
  build_expiry_and_add_signature_frame
    (Session.new_session_builder ("1234") ("sid") 0) sessU [7] rfl

/-- C8: the builder's `build` panics (modelled as `none`) iff the subject
is empty; with a non-empty subject it returns an `Unsigned` session. -/
theorem build_panics_iff_empty_subject (b : SessionBuilder) :
    (b.build = none ↔ b.user_id = "") ∧
    (b.user_id ≠ "" → ∃ s : Session Unsigned, b.build = some s) := by
  unfold SessionBuilder.build
  by_cases hu : b.user_id.isEmpty
  · have he : b.user_id = "" := (String.isEmpty_iff b.user_id).mp hu
    have h0 : "".isEmpty = true := rfl
    simp [hu, he, h0]
  · have hne : b.user_id ≠ "" :=
      fun he => absurd ((String.isEmpty_iff b.user_id).mpr he) hu
    simp [hu, hne]

/-- Witness for C8 at a concrete non-empty subject. -/
theorem build_panics_iff_empty_subject_witness :
    ∃ s : Session Unsigned, (Session.new_session_builder ("1234") ("sid") 0).build = some s :=
  (build_panics_iff_empty_subject (Session.new_session_builder ("1234") ("sid") 0)).2
    (by decide)

/-- C10: `restore` is total and validates nothing: for all inputs
(empty strings, inverted time ranges included) it returns a `Signed`
session whose five attributes and signature are exactly the inputs. -/
theorem restore_is_total_and_unvalidated (id user_id issuer : String)
    (issued_at expires_at : Int) (sig : List Nat) :
    (Session.restore id user_id issuer issued_at expires_at sig).id = id ∧
    (Session.restore id user_id issuer issued_at expires_at sig).user_id = user_id ∧
    (Session.restore id user_id issuer issued_at expires_at sig).issuer = issuer ∧
    (Session.restore id user_id issuer issued_at expires_at sig).issued_at = issued_at ∧
    (Session.restore id user_id issuer issued_at expires_at sig).expires_at = expires_at ∧
    (Session.restore id user_id issuer issued_at expires_at sig).signature = sig :=
  ⟨rfl, rfl, rfl, rfl, rfl, rfl⟩

/-- C9: the canonical representation is not injective: `sessColA` and
`sessColB` differ in id and subject, yet for every timestamp rendering,
digest function and nonce their canonical strings, ledger hashes and
signing payloads coincide. -/
theorem canonical_representation_not_injective :
    ∀ (sha : String → String) (fmtTime : Int → String) (nonce : String),
      sessColA.id ≠ sessColB.id ∧
      sessColA.user_id ≠ sessColB.user_id ∧
      sessColA.canonical fmtTime = sessColB.canonical fmtTime ∧
      sessColA.hash sha fmtTime nonce = sessColB.hash sha fmtTime nonce ∧
      sessColA.canonical fmtTime ++ ":" ++ nonce
        = sessColB.canonical fmtTime ++ ":" ++ nonce := by
  intro sha fmtTime nonce
  refine ⟨by decide, by decide, rfl, rfl, rfl⟩

/-- Helper: closed form of `SessionManager::new_session` (builder defaults
applied, the session literal exposed). -/
theorem new_session_unfold (sha : String → String) (fmtTime : Int → String)
    (m : SessionManager) (user_id : String) (now : Int) (newId : String) :
    m.new_session sha fmtTime user_id now newId =
      if user_id.isEmpty then none
      else
        match m.key.sign ((⟨newId, user_id, m.issuer, now,
            now + m.session_duration, ⟨⟩⟩ : Session Unsigned).canonical fmtTime
            ++ ":" ++ m.nonce) with
        | Except.error e => some (Except.error (SessionError.KeyErr e))
        | Except.ok signature =>
          some (Except.ok
            ((Session.add_signature
                ⟨newId, user_id, m.issuer, now, now + m.session_duration, ⟨⟩⟩
                signature),
             { m with issued_sessions :=
                (ledger_insert m.issued_sessions
                  (Session.hash sha fmtTime
                    (⟨newId, user_id, m.issuer, now, now + m.session_duration, ⟨⟩⟩ :
                      Session Unsigned) m.nonce)
                  ⟨now + m.session_duration⟩) })) := by
  by_cases hu : user_id.isEmpty <;>
    simp [SessionManager.new_session, SessionManager.new_session_steps,
      Session.new_session_builder, SessionBuilder.default_builder,
      SessionBuilder.with_issuer, SessionBuilder.with_duration,
      SessionBuilder.build, hu]

/-- C1 counterexample: on a manager whose issuer is the empty string,
`new_session("1234")` succeeds and returns a signed session, the
verification time 1 lies strictly between issued-at 0 and expires-at 3600,
yet `verify_session` on the same manager returns `Err(InvalidSession)`
rather than `Ok`. -/
theorem new_session_then_verify_counterexample :
    mgrNoIssuer.new_session shaId fmtFix ("1234") 0 ("sid") =
      some (Except.ok (sessNoIssuer, mgrNoIssuer2)) ∧
    sessNoIssuer.issued_at < 1 ∧ (1 : Int) < sessNoIssuer.expires_at ∧
    mgrNoIssuer2.verify_session shaId fmtFix sessNoIssuer 1 =
      Except.error SessionError.InvalidSession :=
  ⟨rfl, by decide, by decide, rfl⟩

/-- C1 (amended): for every subject, on a manager whose issuer is
non-empty and whose signing key verifies its own signatures, if
`new_session` returns a signed session then `verify_session` on the
resulting manager at any time between issued-at and expires-at returns
`Ok`; and the ledger hash / signing payload computed over an unsigned
session agree with those computed over its signed counterpart. -/
theorem new_session_then_verify_ok (sha : String → String)
    (fmtTime : Int → String) (m : SessionManager) (user_id newId : String)
    (now now2 : Int) (p : Session Signed × SessionManager)
    (hiss : m.issuer ≠ "")
    (hsound : ∀ msg sig, m.key.sign msg = Except.ok sig →
      m.key.has_signed msg sig = true)
    (hok : m.new_session sha fmtTime user_id now newId = some (Except.ok p))
    (h1 : p.1.issued_at ≤ now2) (h2 : now2 ≤ p.1.expires_at) :
    p.2.verify_session sha fmtTime p.1 now2 = Except.ok () ∧
    (∀ (u : Session Unsigned) (sig : List Nat),
      (u.add_signature sig).hash sha fmtTime m.nonce
        = u.hash sha fmtTime m.nonce ∧
      (u.add_signature sig).canonical fmtTime = u.canonical fmtTime) := by
  refine ⟨?_, fun u sig => ⟨rfl, rfl⟩⟩
  rw [new_session_unfold] at hok
  by_cases hu : user_id.isEmpty
  · simp [hu] at hok
  · rw [if_neg hu] at hok
    cases hsig : m.key.sign ((⟨newId, user_id, m.issuer, now,
        now + m.session_duration, ⟨⟩⟩ : Session Unsigned).canonical fmtTime
        ++ ":" ++ m.nonce) with
    | error e =>
      rw [hsig] at hok
      simp at hok
    | ok sig =>
      rw [hsig] at hok
      simp only [Option.some.injEq, Except.ok.injEq] at hok
      subst hok
      simp only at h1 h2 ⊢
      have huid : user_id ≠ "" := fun he => hu (by rw [he]; rfl)
      simp only [Session.add_signature] at h1 h2
      have hval : Session.is_valid
          ⟨newId, user_id, m.issuer, now, now + m.session_duration, ⟨sig⟩⟩ now2
          = true := by
        simp [Session.is_valid, Session.is_expired, string_isEmpty_false,
          huid, hiss]
        exact ⟨h2, h1⟩
      have hsgn := hsound _ sig hsig
      simp [SessionManager.verify_session, hval, ledger_contains,
        ledger_insert, Session.hash, Session.canonical, Session.add_signature,
        Session.signature, hsgn]
      simp [Session.canonical] at hsgn
      simp [hsgn]

/-- Witness for C1 (amended) at a concrete manager: default issuer, nonce
"n", subject "1234", issued at time 0, verified at time 1. -/
theorem new_session_then_verify_ok_witness :
    (sessB, mgrBLedger).2.verify_session shaId fmtFix (sessB, mgrBLedger).1 1
      = Except.ok () :=
  (new_session_then_verify_ok shaId fmtFix mgrB ("1234") ("sid") 0 1
    (sessB, mgrBLedger) (by decide) (fun _ _ _ => rfl) rfl
    (by decide) (by decide)).1

/-- C2: `verify_session` performs its three checks in order with
short-circuiting: the result is `Err(InvalidSession)` iff `is_valid` is
false; given validity, `Err(UnknownSession)` iff the ledger misses
`hash(nonce)`; given validity and ledger membership,
`Err(InvalidSignature)` iff `has_signed` rejects the signature over
canonical ++ ":" ++ nonce; `Ok` iff all three pass. The three error kinds
are pairwise distinct. -/
theorem verify_session_three_checks (sha : String → String)
    (fmtTime : Int → String) (m : SessionManager) (s : Session Signed)
    (now : Int) :
    (m.verify_session sha fmtTime s now = Except.error SessionError.InvalidSession
       ↔ s.is_valid now = false) ∧
    (s.is_valid now = true →
      (m.verify_session sha fmtTime s now = Except.error SessionError.UnknownSession
        ↔ ledger_contains m.issued_sessions (s.hash sha fmtTime m.nonce) = false)) ∧
    (s.is_valid now = true →
      ledger_contains m.issued_sessions (s.hash sha fmtTime m.nonce) = true →
      (m.verify_session sha fmtTime s now = Except.error SessionError.InvalidSignature
        ↔ m.key.has_signed (s.canonical fmtTime ++ ":" ++ m.nonce) s.signature
            = false)) ∧
    (m.verify_session sha fmtTime s now = Except.ok () ↔
      (s.is_valid now = true ∧
       ledger_contains m.issued_sessions (s.hash sha fmtTime m.nonce) = true ∧
       m.key.has_signed (s.canonical fmtTime ++ ":" ++ m.nonce) s.signature
         = true)) ∧
    (SessionError.InvalidSession ≠ SessionError.UnknownSession ∧
     SessionError.InvalidSession ≠ SessionError.InvalidSignature ∧
     SessionError.UnknownSession ≠ SessionError.InvalidSignature) := by
  unfold SessionManager.verify_session
  cases hv : s.is_valid now <;>
    cases hl : ledger_contains m.issued_sessions (s.hash sha fmtTime m.nonce) <;>
      cases hs : m.key.has_signed (s.canonical fmtTime ++ ":" ++ m.nonce)
          s.signature <;>
        simp [hv, hl, hs]

/-- Witness for C2 at a concrete input: a valid session presented to a
manager with an empty ledger is rejected as `UnknownSession`. -/
theorem verify_session_three_checks_witness :
    mgrB.verify_session shaId fmtFix sessB 1
      = Except.error SessionError.UnknownSession :=
  ((verify_session_three_checks shaId fmtFix mgrB sessB 1).2.1 (by decide)).mpr
    rfl

/-- C7 counterexample: loading a byte blob that is not a valid
private-key encoding does not fail at load time: `Key::open` wraps the raw
bytes and returns `Ok`, even for a blob every pkcs8 parser rejects; the
encoding error surfaces only when signing. -/
theorem key_open_counterexample :
    Key.open_file (Except.ok [0, 1, 2]) = Except.ok ⟨[0, 1, 2]⟩ ∧
    Key.sign (fun _ => false) (fun _ m => m) ⟨[0, 1, 2]⟩ [5]
      = Except.error KeyError.RingKeyRejected :=
  ⟨rfl, rfl⟩

/-- C7 (amended): `Key::open` fails only on an I/O read failure and never
inspects the bytes; a key whose material the pkcs8 parser rejects fails at
signing time with `RingKeyRejected` — an error kind distinct from the
I/O kind — while verification (`has_signed`) never errors and simply
returns false. -/
theorem key_errors_are_deferred (parseOk : List Nat → Bool)
    (edSign : List Nat → List Nat → List Nat)
    (edVerify : List Nat → List Nat → List Nat → Bool)
    (k : Key) (msg sig : List Nat)
    (hbad : parseOk k.der_bytes = false) :
    Key.sign parseOk edSign k msg = Except.error KeyError.RingKeyRejected ∧
    Key.has_signed parseOk edVerify k msg sig = false ∧
    (∀ bs : List Nat, Key.open_file (Except.ok bs) = Except.ok ⟨bs⟩) ∧
    (∀ e : Unit, Key.open_file (Except.error e) = Except.error KeyError.IoError) ∧
    KeyError.RingKeyRejected ≠ KeyError.IoError := by
  refine ⟨?_, ?_, fun bs => rfl, fun e => rfl, by decide⟩
  · simp [Key.sign, hbad]
  · simp [Key.has_signed, hbad]

/-- Witness for C7 (amended) at a concrete rejected key blob. -/
theorem key_errors_are_deferred_witness :
    Key.sign (fun _ => false) (fun _ m => m) ⟨[9]⟩ [5]
      = Except.error KeyError.RingKeyRejected ∧
    Key.has_signed (fun _ => false) (fun _ _ _ => true) ⟨[9]⟩ [5] [6] = false ∧
    KeyError.RingKeyRejected ≠ KeyError.IoError :=
  ⟨(key_errors_are_deferred (fun _ => false) (fun _ m => m) (fun _ _ _ => true)
      ⟨[9]⟩ [5] [6] rfl).1,
   (key_errors_are_deferred (fun _ => false) (fun _ m => m) (fun _ _ _ => true)
      ⟨[9]⟩ [5] [6] rfl).2.1,
   (key_errors_are_deferred (fun _ => false) (fun _ m => m) (fun _ _ _ => true)
      ⟨[9]⟩ [5] [6] rfl).2.2.2.2⟩

end Svc
